import Mathlib

/-!
Verification development for the Alexandria API client library
(`src/lib.rs`).  The library is a typestate-gated HTTP+JSON client: a
single generic request executor `do_req` performs the whole
request/response cycle, thin wrappers `do_get`/`do_post`/`do_put`/
`do_delete` fix the HTTP method, and a handle `Server<T>` indexed by an
authentication marker (`Unauth`/`Auth`) exposes privileged endpoints
only in the `Auth` state.

The embedding is shallow: external collaborators (the `url` parser, the
JSON codecs of the `serialize` crate and the transport of `hyper`) are
parameters.  A `Wire` value records the outcome the transport would
produce for the one request an operation makes: whether connecting,
starting, writing, sending or reading fails, the HTTP status and the
response body.  Error payloads carried by the Rust error types
(`hyper::HttpError`, `std::io::IoError`, `json::DecoderError`,
`url::ParseError`) are opaque and modelled as `Nat`.
-/

namespace Alexandria

/-- Opaque payload of `hyper::HttpError`. -/
abbrev HErr := Nat

/-- Opaque payload of `std::io::IoError`. -/
abbrev IoE := Nat

/-- Opaque payload of `json::DecoderError`. -/
abbrev DErr := Nat

/-- Opaque payload of `url::ParseError`. -/
abbrev PErr := Nat

/-- `enum Error` of the library (lib.rs lines 40-52), with each
variant's payload kept opaque. -/
inductive Error where
  | HttpError : HErr → Error
  | JsonError : DErr → Error
  | IoError : IoE → Error
  | NotFound : Error
  | InternalError : Error
  | ApiSaidNo : Error
  | AuthError : Error
  | GotNull : Error
deriving DecidableEq, Repr

/-- `pub type APIResult<T> = Result<T, Error>`. -/
abbrev APIResult (α : Type) := Except Error α

/-- The HTTP method fixed by the `cb` argument of `do_req`
(`Request::get` / `post` / `put` / `delete`). -/
inductive Method where
  | GET
  | POST
  | PUT
  | DELETE
deriving DecidableEq, Repr

/-- The request an operation hands to the transport: the method chosen
by the wrapper, the assembled URL string, and the JSON-encoded body
written onto the stream when one is present. -/
structure HRequest where
  method : Method
  url : String
  body : Option String
deriving DecidableEq, Repr

/-- The transport's behaviour for one request: for each fallible step
of `do_req`, `some e` when the step fails with payload `e`, plus the
HTTP status of the response and its body text. -/
structure Wire where
  connectErr : Option HErr
  startErr : Option HErr
  writeErr : Option IoE
  sendErr : Option HErr
  status : Nat
  readErr : Option IoE
  respBody : String
deriving DecidableEq, Repr

/-- Status classification and body handling of `do_req` (lib.rs lines
72-81): `match resp.status` sends 404 to `NotFound`, 500 to
`InternalError`, 401 to `AuthError`, lets 200 fall through to
`read_to_string` (failure is `IoError`) and `json::decode` (failure is
`JsonError`), and sends every other status to `ApiSaidNo`. -/
def classify {U : Type} (decode : String → Except DErr U) (w : Wire) :
    APIResult U :=
  if w.status = 404 then .error .NotFound
  else if w.status = 500 then .error .InternalError
  else if w.status = 401 then .error .AuthError
  else if w.status = 200 then
    match w.readErr with
    | some e => .error (.IoError e)
    | none =>
      match decode w.respBody with
      | .error e => .error (.JsonError e)
      | .ok v => .ok v
  else .error .ApiSaidNo

/-- The tail of `do_req` from `req.send()` on (lib.rs line 71): send
failure is `HttpError`, then the response is classified. -/
def receive {U : Type} (decode : String → Except DErr U) (w : Wire) :
    APIResult U :=
  match w.sendErr with
  | some e => .error (.HttpError e)
  | none => classify decode w

/-- Outcome of `do_req` (lib.rs lines 56-82): `cb(url)` failure and
`req.start()` failure are `HttpError`; when `data` is present its
encoding is written and a write failure is `IoError`; then the request
is sent and the response received. -/
def do_req_result {T U : Type} (decode : String → Except DErr U)
    (w : Wire) (data : Option T) : APIResult U :=
  match w.connectErr with
  | some e => .error (.HttpError e)
  | none =>
    match w.startErr with
    | some e => .error (.HttpError e)
    | none =>
      match data with
      | some _ =>
        match w.writeErr with
        | some e => .error (.IoError e)
        | none => receive decode w
      | none => receive decode w

/-- `fn do_req<T, U>(url, data, cb)` of lib.rs lines 56-82, paired with
the request descriptor it drives: the method fixed by `cb`, the URL,
and `json::encode` of the body exactly when `data` is `Some`. -/
def do_req {T U : Type} (encode : T → String)
    (decode : String → Except DErr U) (w : Wire) (url : String)
    (data : Option T) (method : Method) : APIResult U × HRequest :=
  (do_req_result decode w data, ⟨method, url, Option.map encode data⟩)

/-- `fn do_get<T>(url)`: `do_req(url, None::<i32>, Request::get)`. -/
def do_get {U : Type} (decode : String → Except DErr U) (w : Wire)
    (url : String) : APIResult U × HRequest :=
  do_req (fun n : Int => toString n) decode w url none .GET

/-- `fn do_post<T, U>(url, body)`: `do_req(url, body, Request::post)`. -/
def do_post {T U : Type} (encode : T → String)
    (decode : String → Except DErr U) (w : Wire) (url : String)
    (body : Option T) : APIResult U × HRequest :=
  do_req encode decode w url body .POST

/-- `fn do_put<T, U>(url, body)`: `do_req(url, body, Request::put)`. -/
def do_put {T U : Type} (encode : T → String)
    (decode : String → Except DErr U) (w : Wire) (url : String)
    (body : Option T) : APIResult U × HRequest :=
  do_req encode decode w url body .PUT

/-- `fn do_delete<T, U>(url, body)`: `do_req(url, body,
Request::delete)`. -/
def do_delete {T U : Type} (encode : T → String)
    (decode : String → Except DErr U) (w : Wire) (url : String)
    (body : Option T) : APIResult U × HRequest :=
  do_req encode decode w url body .DELETE

/-- The two authentication-state marker types, `pub struct Unauth` and
`pub struct Auth` (lib.rs lines 23-24). -/
inductive St where
  | Unauth
  | Auth
deriving DecidableEq, Repr

/-- The `Proto` trait (lib.rs lines 108-118): the scheme string each
marker chooses.  In the source BOTH impls return `"http"`. -/
def St.proto : St → String
  | .Auth => "http"
  | .Unauth => "http"

/-- `pub struct Server<T> { base_url: String, proto: T }` (lib.rs lines
30-33).  The zero-size marker field is the index `T`. -/
structure Server (T : St) where
  base_url : String
deriving DecidableEq, Repr

/-- `Book` of the external `alexandria` crate: an opaque payload type
the client only encodes and decodes. -/
structure Book where
  isbn : String
  title : String
deriving DecidableEq, Repr

/-- The action discriminant of `alexandria::ActionRequest`
(`alexandria::CheckOut` / `alexandria::CheckIn`). -/
inductive Action where
  | CheckOut
  | CheckIn
deriving DecidableEq, Repr

/-- `alexandria::ActionRequest` as built at lib.rs lines 184-188 and
200-204. -/
structure ActionRequest where
  action : Action
  isbn : String
  student_id : String
deriving DecidableEq, Repr

/-- Outcome of a call that may abort the process: `panic msg` embeds a
Rust panic (from `.unwrap()` / `.expect(msg)`), `ok` a normal return. -/
inductive PanicOr (α : Type) where
  | panic : String → PanicOr α
  | ok : α → PanicOr α
deriving DecidableEq, Repr

/-- The `format!("{}://{}/book?count={}", proto, base, count)` string
of `get_books`. -/
def book_count_url (p : St) (base : String) (count : Nat) : String :=
  p.proto ++ "://" ++ base ++ "/book?count=" ++ toString count

/-- The `format!("{}://{}/book/{}", proto, base, isbn)` string of
`get_book_by_isbn`, `update_book`, `delete_book` and `register_book`. -/
def book_isbn_url (p : St) (base isbn : String) : String :=
  p.proto ++ "://" ++ base ++ "/book/" ++ isbn

/-- The `format!("{}://{}/book", proto, base)` string of `add_book`. -/
def book_base_url (p : St) (base : String) : String :=
  p.proto ++ "://" ++ base ++ "/book"

/-- The `format!("{}://{}/auth?user={}&pass={}", ...)` string of
`authenticate` (built from the upgraded handle, so with the `Auth`
scheme). -/
def auth_url (base user pass : String) : String :=
  St.Auth.proto ++ "://" ++ base ++ "/auth?user=" ++ user ++ "&pass=" ++
    pass

/-- The `format!("{}://{}/checkout", ...)` string of `checkout`. -/
def checkout_url (base : String) : String :=
  St.Auth.proto ++ "://" ++ base ++ "/checkout"

/-- The `format!("{}://{}/checkin", ...)` string of `checkin`. -/
def checkin_url (base : String) : String :=
  St.Auth.proto ++ "://" ++ base ++ "/checkin"

/-- `Server::new(base)` (lib.rs lines 129-134): `Url::parse(base)` is
consulted — `Ok(_)` stores `base` in an `Unauth` handle, `Err(e)`
returns the parse error.  No request is made, so the trace is empty.
The parser is the external `url` crate, passed as `parse` (`none`
means the string parses). -/
def new (parse : String → Option PErr) (base : String) :
    Except PErr (Server .Unauth) × List HRequest :=
  (match parse base with
   | none => .ok ⟨base⟩
   | some e => .error e,
   [])

/-- `Server::<T>::get_books(count)` (lib.rs lines 140-145), generic
over the marker: assembles `proto://base/book?count=n`, panics via
`.ok().unwrap()` when the URL does not parse, otherwise `do_get`. -/
def get_books {T : St} (parse : String → Option PErr)
    (decode : String → Except DErr (List Book)) (w : Wire)
    (s : Server T) (count : Nat) :
    PanicOr (APIResult (List Book)) × List HRequest :=
  let url := book_count_url T s.base_url count
  match parse url with
  | some _ => (.panic "called Option::unwrap on a None value", [])
  | none =>
    let r := do_get decode w url
    (.ok r.1, [r.2])

/-- `Server::<T>::get_book_by_isbn(isbn)` (lib.rs lines 148-153):
assembles `proto://base/book/isbn`, panics via `.expect("Invalid
ISBN!")` when the URL does not parse, otherwise `do_get`. -/
def get_book_by_isbn {T : St} (parse : String → Option PErr)
    (decode : String → Except DErr (Option Book)) (w : Wire)
    (s : Server T) (isbn : String) :
    PanicOr (APIResult (Option Book)) × List HRequest :=
  let url := book_isbn_url T s.base_url isbn
  match parse url with
  | some _ => (.panic "Invalid ISBN!", [])
  | none =>
    let r := do_get decode w url
    (.ok r.1, [r.2])

/-- `Server::<Unauth>::authenticate(self, user, pass)` (lib.rs lines
160-174): takes the handle by value, builds the `Auth` handle `serv`
from its `base_url` first, issues a GET on
`serv.proto://base/auth?user=u&pass=p` (panicking via `.expect` when
the URL does not parse), decodes `()`, and returns `serv` on success
or the error on failure. -/
def authenticate (parse : String → Option PErr)
    (decodeUnit : String → Except DErr Unit) (w : Wire)
    (s : Server .Unauth) (user pass : String) :
    PanicOr (APIResult (Server .Auth)) × List HRequest :=
  let serv : Server .Auth := ⟨s.base_url⟩
  let url := auth_url serv.base_url user pass
  match parse url with
  | some _ => (.panic "TODO: URLEncoding (not your fault)", [])
  | none =>
    let r := do_get decodeUnit w url
    match r.1 with
    | .ok () => (.ok (.ok serv), [r.2])
    | .error e => (.ok (.error e), [r.2])

/-- `Server::<Auth>::checkout(isbn, student_id)` (lib.rs lines
181-193): POSTs a `CheckOut` `ActionRequest` to
`proto://base/checkout`. -/
def checkout (parse : String → Option PErr)
    (encode : ActionRequest → String)
    (decode : String → Except DErr Bool) (w : Wire)
    (s : Server .Auth) (isbn student_id : String) :
    PanicOr (APIResult Bool) × List HRequest :=
  let ac : ActionRequest := ⟨.CheckOut, isbn, student_id⟩
  let url := checkout_url s.base_url
  match parse url with
  | some _ => (.panic "Invalid ISBN or Student ID!", [])
  | none =>
    let r := do_post encode decode w url (some ac)
    (.ok r.1, [r.2])

/-- `Server::<Auth>::checkin(isbn, student_id)` (lib.rs lines
198-209): POSTs a `CheckIn` `ActionRequest` to
`proto://base/checkin`. -/
def checkin (parse : String → Option PErr)
    (encode : ActionRequest → String)
    (decode : String → Except DErr Bool) (w : Wire)
    (s : Server .Auth) (isbn student_id : String) :
    PanicOr (APIResult Bool) × List HRequest :=
  let ac : ActionRequest := ⟨.CheckIn, isbn, student_id⟩
  let url := checkin_url s.base_url
  match parse url with
  | some _ => (.panic "Invalid ISBN or Student ID!", [])
  | none =>
    let r := do_post encode decode w url (some ac)
    (.ok r.1, [r.2])

/-- `Server::<Auth>::update_book(isbn, book)` (lib.rs lines 214-219):
POSTs the full book to `proto://base/book/isbn`. -/
def update_book (parse : String → Option PErr)
    (encode : Book → String) (decode : String → Except DErr Bool)
    (w : Wire) (s : Server .Auth) (isbn : String) (book : Book) :
    PanicOr (APIResult Bool) × List HRequest :=
  let url := book_isbn_url .Auth s.base_url isbn
  match parse url with
  | some _ => (.panic "Invalid ISBN!", [])
  | none =>
    let r := do_post encode decode w url (some book)
    (.ok r.1, [r.2])

/-- `Server::<Auth>::add_book(book)` (lib.rs lines 224-229): PUTs the
book to `proto://base/book`. -/
def add_book (parse : String → Option PErr)
    (encode : Book → String) (decode : String → Except DErr Bool)
    (w : Wire) (s : Server .Auth) (book : Book) :
    PanicOr (APIResult Bool) × List HRequest :=
  let url := book_base_url .Auth s.base_url
  match parse url with
  | some _ => (.panic "Invalid ISBN!", [])
  | none =>
    let r := do_put encode decode w url (some book)
    (.ok r.1, [r.2])

/-- `Server::<Auth>::delete_book(isbn)` (lib.rs lines 235-240):
DELETEs `proto://base/book/isbn` with body `None::<int>`. -/
def delete_book (parse : String → Option PErr)
    (decode : String → Except DErr Bool) (w : Wire)
    (s : Server .Auth) (isbn : String) :
    PanicOr (APIResult Bool) × List HRequest :=
  let url := book_isbn_url .Auth s.base_url isbn
  match parse url with
  | some _ => (.panic "Invalid ISBN!", [])
  | none =>
    let r := do_delete (fun n : Int => toString n) decode w url none
    (.ok r.1, [r.2])

/-- `Server::<Auth>::register_book(isbn)` (lib.rs lines 243-248): PUTs
the isbn string to `proto://base/book/isbn`. -/
def register_book (parse : String → Option PErr)
    (encode : String → String) (decode : String → Except DErr Bool)
    (w : Wire) (s : Server .Auth) (isbn : String) :
    PanicOr (APIResult Bool) × List HRequest :=
  let url := book_isbn_url .Auth s.base_url isbn
  match parse url with
  | some _ => (.panic "Invalid ISBN!", [])
  | none =>
    let r := do_put encode decode w url (some isbn)
    (.ok r.1, [r.2])

/-- The public method surface of the client, one constructor per
method, carrying the method's arguments. -/
inductive Call where
  | get_books (count : Nat)
  | get_book_by_isbn (isbn : String)
  | authenticate (user pass : String)
  | checkout (isbn student_id : String)
  | checkin (isbn student_id : String)
  | update_book (isbn : String) (book : Book)
  | add_book (book : Book)
  | delete_book (isbn : String)
  | register_book (isbn : String)
deriving DecidableEq, Repr

/-- The privileged operations: the six methods of the
`impl Server<Auth>` block (lib.rs lines 177-249). -/
def Call.privileged : Call → Bool
  | .checkout .. => true
  | .checkin .. => true
  | .update_book .. => true
  | .add_book .. => true
  | .delete_book .. => true
  | .register_book .. => true
  | _ => false

/-- The HTTP method the spec assigns each endpoint: GET for
list/lookup/authenticate, POST for checkout/checkin/update, PUT for
add/register, DELETE for delete. -/
def Call.specMethod : Call → Method
  | .get_books .. => .GET
  | .get_book_by_isbn .. => .GET
  | .authenticate .. => .GET
  | .checkout .. => .POST
  | .checkin .. => .POST
  | .update_book .. => .POST
  | .add_book .. => .PUT
  | .register_book .. => .PUT
  | .delete_book .. => .DELETE

/-- The value a successful call returns, summed over the return types
of the client's methods. -/
inductive OutVal where
  | books : List Book → OutVal
  | optBook : Option Book → OutVal
  | flag : Bool → OutVal
  | unit : OutVal
deriving DecidableEq, Repr

/-- A live client handle: a `Server<Unauth>` or a `Server<Auth>`. -/
inductive Handle where
  | unauth : Server .Unauth → Handle
  | auth : Server .Auth → Handle
deriving DecidableEq, Repr

/-- The external collaborators of one call: the `url` parser, the wire
behaviour of the transport, and the JSON codecs of every payload type
an endpoint uses. -/
structure Env where
  parse : String → Option PErr
  wire : Wire
  encodeAR : ActionRequest → String
  encodeBook : Book → String
  encodeStr : String → String
  decodeBooks : String → Except DErr (List Book)
  decodeOptBook : String → Except DErr (Option Book)
  decodeBool : String → Except DErr Bool
  decodeUnit : String → Except DErr Unit

/-- Injects a method's typed result into `OutVal`, leaving panics and
errors untouched. -/
def mapOut {α : Type} (f : α → OutVal) :
    PanicOr (APIResult α) → PanicOr (APIResult OutVal)
  | .panic m => .panic m
  | .ok (.ok v) => .ok (.ok (f v))
  | .ok (.error e) => .ok (.error e)

/-- One call on a live handle.  `none` means the method does not exist
on a handle in that state (the Rust program would not compile): the
generic `impl<T: Proto> Server<T>` block provides `get_books` and
`get_book_by_isbn` in both states, `authenticate` exists only on
`Server<Unauth>` and consumes the handle, and the six privileged
methods exist only on `Server<Auth>` and borrow the handle.  `some
(h', r, t)` gives the handle remaining after the call (`none` when it
was consumed and not replaced), the call's outcome and the requests
handed to the transport. -/
def step (env : Env) (h : Handle) (c : Call) :
    Option (Option Handle × PanicOr (APIResult OutVal) × List HRequest) :=
  match h, c with
  | .unauth s, .get_books count =>
    let r := get_books env.parse env.decodeBooks env.wire s count
    some (some h, mapOut .books r.1, r.2)
  | .auth s, .get_books count =>
    let r := get_books env.parse env.decodeBooks env.wire s count
    some (some h, mapOut .books r.1, r.2)
  | .unauth s, .get_book_by_isbn isbn =>
    let r := get_book_by_isbn env.parse env.decodeOptBook env.wire s isbn
    some (some h, mapOut .optBook r.1, r.2)
  | .auth s, .get_book_by_isbn isbn =>
    let r := get_book_by_isbn env.parse env.decodeOptBook env.wire s isbn
    some (some h, mapOut .optBook r.1, r.2)
  | .unauth s, .authenticate user pass =>
    let r := authenticate env.parse env.decodeUnit env.wire s user pass
    some (match r.1 with
          | .ok (.ok serv) => some (.auth serv)
          | _ => none,
          mapOut (fun _ => .unit) r.1, r.2)
  | .auth s, .checkout isbn student_id =>
    let r := checkout env.parse env.encodeAR env.decodeBool env.wire s
      isbn student_id
    some (some h, mapOut .flag r.1, r.2)
  | .auth s, .checkin isbn student_id =>
    let r := checkin env.parse env.encodeAR env.decodeBool env.wire s
      isbn student_id
    some (some h, mapOut .flag r.1, r.2)
  | .auth s, .update_book isbn book =>
    let r := update_book env.parse env.encodeBook env.decodeBool
      env.wire s isbn book
    some (some h, mapOut .flag r.1, r.2)
  | .auth s, .add_book book =>
    let r := add_book env.parse env.encodeBook env.decodeBool env.wire
      s book
    some (some h, mapOut .flag r.1, r.2)
  | .auth s, .delete_book isbn =>
    let r := delete_book env.parse env.decodeBool env.wire s isbn
    some (some h, mapOut .flag r.1, r.2)
  | .auth s, .register_book isbn =>
    let r := register_book env.parse env.encodeStr env.decodeBool
      env.wire s isbn
    some (some h, mapOut .flag r.1, r.2)
  | _, _ => none

/-! ## Concrete environments for evaluating the embedding -/

/-- A transport on which every step succeeds, the status is 200 and the
body is empty. -/
def wireOk : Wire := ⟨none, none, none, none, 200, none, ""⟩

/-- A URL parser that accepts every string. -/
def parseAll : String → Option PErr := fun _ => none

/-- Trivial codecs over `parseAll` and `wireOk`: every decode succeeds
on a default value. -/
def env0 : Env :=
  ⟨parseAll, wireOk, fun _ => "", fun _ => "", fun s => s,
   fun _ => .ok [], fun _ => .ok none, fun _ => .ok true,
   fun _ => .ok ()⟩

/-- A URL parser that rejects exactly the URL
`http://example.com/book/bad isbn` (as the real parser may reject an
assembled URL containing a character such as a space). -/
def badParse : String → Option PErr := fun str =>
  if str = "http://example.com/book/bad isbn" then some 0 else none

/-- `env0` with `badParse` as the URL parser. -/
def envBad : Env :=
  ⟨badParse, wireOk, fun _ => "", fun _ => "", fun s => s,
   fun _ => .ok [], fun _ => .ok none, fun _ => .ok true,
   fun _ => .ok ()⟩

/-! ## Helper lemmas -/

theorem classify_ne_gotnull {U : Type} (d : String → Except DErr U)
    (w : Wire) : classify d w ≠ .error .GotNull := by
  unfold classify
  split_ifs <;> try simp
  cases w.readErr with
  | some e => simp
  | none => cases d w.respBody <;> simp

theorem receive_ne_gotnull {U : Type} (d : String → Except DErr U)
    (w : Wire) : receive d w ≠ .error .GotNull := by
  unfold receive
  cases w.sendErr with
  | some e => simp
  | none => exact classify_ne_gotnull d w

theorem do_req_result_ne_gotnull {T U : Type}
    (d : String → Except DErr U) (w : Wire) (data : Option T) :
    do_req_result d w data ≠ .error .GotNull := by
  unfold do_req_result
  cases w.connectErr with
  | some e => simp
  | none =>
    cases w.startErr with
    | some e => simp
    | none =>
      cases data with
      | none => exact receive_ne_gotnull d w
      | some b =>
        cases w.writeErr with
        | some e => simp
        | none => exact receive_ne_gotnull d w

theorem mapOut_panic_iff {α : Type} (f : α → OutVal)
    (x : PanicOr (APIResult α)) (m : String) :
    mapOut f x = .panic m ↔ x = .panic m := by
  cases x with
  | panic m2 => simp [mapOut]
  | ok a => cases a <;> simp [mapOut]

theorem mapOut_error_iff {α : Type} (f : α → OutVal)
    (x : PanicOr (APIResult α)) (e : Error) :
    mapOut f x = .ok (.error e) ↔ x = .ok (.error e) := by
  cases x with
  | panic m2 => simp [mapOut]
  | ok a => cases a <;> simp [mapOut]

/-- Both ways `get_books` can go, driven by the URL parse. -/
theorem get_books_cases {T : St} (parse : String → Option PErr)
    (dec : String → Except DErr (List Book)) (w : Wire) (s : Server T)
    (count : Nat) :
    ((∃ e, parse (book_count_url T s.base_url count) = some e) ∧
      get_books parse dec w s count =
        (.panic "called Option::unwrap on a None value", [])) ∨
    (parse (book_count_url T s.base_url count) = none ∧
      get_books parse dec w s count =
        (.ok (do_req_result dec w (none : Option Int)),
         [⟨.GET, book_count_url T s.base_url count, none⟩])) := by
  cases hp : parse (book_count_url T s.base_url count) with
  | none => exact .inr ⟨rfl, by simp [get_books, hp, do_get, do_req]⟩
  | some e => exact .inl ⟨⟨e, rfl⟩, by simp [get_books, hp]⟩

/-- Both ways `get_book_by_isbn` can go, driven by the URL parse. -/
theorem get_book_by_isbn_cases {T : St} (parse : String → Option PErr)
    (dec : String → Except DErr (Option Book)) (w : Wire)
    (s : Server T) (isbn : String) :
    ((∃ e, parse (book_isbn_url T s.base_url isbn) = some e) ∧
      get_book_by_isbn parse dec w s isbn = (.panic "Invalid ISBN!", [])) ∨
    (parse (book_isbn_url T s.base_url isbn) = none ∧
      get_book_by_isbn parse dec w s isbn =
        (.ok (do_req_result dec w (none : Option Int)),
         [⟨.GET, book_isbn_url T s.base_url isbn, none⟩])) := by
  cases hp : parse (book_isbn_url T s.base_url isbn) with
  | none =>
    exact .inr ⟨rfl, by simp [get_book_by_isbn, hp, do_get, do_req]⟩
  | some e => exact .inl ⟨⟨e, rfl⟩, by simp [get_book_by_isbn, hp]⟩

/-- The three ways `authenticate` can go: URL-parse panic, executor
error, or success returning the upgraded handle built from the old
handle's base address. -/
theorem authenticate_cases (parse : String → Option PErr)
    (dec : String → Except DErr Unit) (w : Wire) (s : Server .Unauth)
    (user pass : String) :
    ((∃ e, parse (auth_url s.base_url user pass) = some e) ∧
      authenticate parse dec w s user pass =
        (.panic "TODO: URLEncoding (not your fault)", [])) ∨
    (parse (auth_url s.base_url user pass) = none ∧
      ((∃ e, do_req_result dec w (none : Option Int) = .error e ∧
        authenticate parse dec w s user pass =
          (.ok (.error e),
           [⟨.GET, auth_url s.base_url user pass, none⟩])) ∨
       (do_req_result dec w (none : Option Int) = .ok () ∧
        authenticate parse dec w s user pass =
          (.ok (.ok ⟨s.base_url⟩),
           [⟨.GET, auth_url s.base_url user pass, none⟩])))) := by
  cases hp : parse (auth_url s.base_url user pass) with
  | some e => exact .inl ⟨⟨e, rfl⟩, by simp [authenticate, hp]⟩
  | none =>
    refine .inr ⟨rfl, ?_⟩
    cases hr : do_req_result dec w (none : Option Int) with
    | error e =>
      exact .inl ⟨e, rfl, by
        simp [authenticate, hp, do_get, do_req, hr]⟩
    | ok v =>
      exact .inr ⟨by simp [hr], by
        simp [authenticate, hp, do_get, do_req, hr]⟩

/-- Both ways `checkout` can go, driven by the URL parse. -/
theorem checkout_cases (parse : String → Option PErr)
    (enc : ActionRequest → String) (dec : String → Except DErr Bool)
    (w : Wire) (s : Server .Auth) (isbn student_id : String) :
    ((∃ e, parse (checkout_url s.base_url) = some e) ∧
      checkout parse enc dec w s isbn student_id =
        (.panic "Invalid ISBN or Student ID!", [])) ∨
    (parse (checkout_url s.base_url) = none ∧
      checkout parse enc dec w s isbn student_id =
        (.ok (do_req_result dec w (some (⟨.CheckOut, isbn, student_id⟩
           : ActionRequest))),
         [⟨.POST, checkout_url s.base_url,
           some (enc ⟨.CheckOut, isbn, student_id⟩)⟩])) := by
  cases hp : parse (checkout_url s.base_url) with
  | none => exact .inr ⟨rfl, by simp [checkout, hp, do_post, do_req]⟩
  | some e => exact .inl ⟨⟨e, rfl⟩, by simp [checkout, hp]⟩

/-- Both ways `checkin` can go, driven by the URL parse. -/
theorem checkin_cases (parse : String → Option PErr)
    (enc : ActionRequest → String) (dec : String → Except DErr Bool)
    (w : Wire) (s : Server .Auth) (isbn student_id : String) :
    ((∃ e, parse (checkin_url s.base_url) = some e) ∧
      checkin parse enc dec w s isbn student_id =
        (.panic "Invalid ISBN or Student ID!", [])) ∨
    (parse (checkin_url s.base_url) = none ∧
      checkin parse enc dec w s isbn student_id =
        (.ok (do_req_result dec w (some (⟨.CheckIn, isbn, student_id⟩
           : ActionRequest))),
         [⟨.POST, checkin_url s.base_url,
           some (enc ⟨.CheckIn, isbn, student_id⟩)⟩])) := by
  cases hp : parse (checkin_url s.base_url) with
  | none => exact .inr ⟨rfl, by simp [checkin, hp, do_post, do_req]⟩
  | some e => exact .inl ⟨⟨e, rfl⟩, by simp [checkin, hp]⟩

/-- Both ways `update_book` can go, driven by the URL parse. -/
theorem update_book_cases (parse : String → Option PErr)
    (enc : Book → String) (dec : String → Except DErr Bool) (w : Wire)
    (s : Server .Auth) (isbn : String) (book : Book) :
    ((∃ e, parse (book_isbn_url .Auth s.base_url isbn) = some e) ∧
      update_book parse enc dec w s isbn book =
        (.panic "Invalid ISBN!", [])) ∨
    (parse (book_isbn_url .Auth s.base_url isbn) = none ∧
      update_book parse enc dec w s isbn book =
        (.ok (do_req_result dec w (some book)),
         [⟨.POST, book_isbn_url .Auth s.base_url isbn,
           some (enc book)⟩])) := by
  cases hp : parse (book_isbn_url .Auth s.base_url isbn) with
  | none => exact .inr ⟨rfl, by simp [update_book, hp, do_post, do_req]⟩
  | some e => exact .inl ⟨⟨e, rfl⟩, by simp [update_book, hp]⟩

/-- Both ways `add_book` can go, driven by the URL parse. -/
theorem add_book_cases (parse : String → Option PErr)
    (enc : Book → String) (dec : String → Except DErr Bool) (w : Wire)
    (s : Server .Auth) (book : Book) :
    ((∃ e, parse (book_base_url .Auth s.base_url) = some e) ∧
      add_book parse enc dec w s book = (.panic "Invalid ISBN!", [])) ∨
    (parse (book_base_url .Auth s.base_url) = none ∧
      add_book parse enc dec w s book =
        (.ok (do_req_result dec w (some book)),
         [⟨.PUT, book_base_url .Auth s.base_url, some (enc book)⟩])) := by
  cases hp : parse (book_base_url .Auth s.base_url) with
  | none => exact .inr ⟨rfl, by simp [add_book, hp, do_put, do_req]⟩
  | some e => exact .inl ⟨⟨e, rfl⟩, by simp [add_book, hp]⟩

/-- Both ways `delete_book` can go, driven by the URL parse. -/
theorem delete_book_cases (parse : String → Option PErr)
    (dec : String → Except DErr Bool) (w : Wire) (s : Server .Auth)
    (isbn : String) :
    ((∃ e, parse (book_isbn_url .Auth s.base_url isbn) = some e) ∧
      delete_book parse dec w s isbn = (.panic "Invalid ISBN!", [])) ∨
    (parse (book_isbn_url .Auth s.base_url isbn) = none ∧
      delete_book parse dec w s isbn =
        (.ok (do_req_result dec w (none : Option Int)),
         [⟨.DELETE, book_isbn_url .Auth s.base_url isbn, none⟩])) := by
  cases hp : parse (book_isbn_url .Auth s.base_url isbn) with
  | none =>
    exact .inr ⟨rfl, by simp [delete_book, hp, do_delete, do_req]⟩
  | some e => exact .inl ⟨⟨e, rfl⟩, by simp [delete_book, hp]⟩

/-- Both ways `register_book` can go, driven by the URL parse. -/
theorem register_book_cases (parse : String → Option PErr)
    (enc : String → String) (dec : String → Except DErr Bool)
    (w : Wire) (s : Server .Auth) (isbn : String) :
    ((∃ e, parse (book_isbn_url .Auth s.base_url isbn) = some e) ∧
      register_book parse enc dec w s isbn =
        (.panic "Invalid ISBN!", [])) ∨
    (parse (book_isbn_url .Auth s.base_url isbn) = none ∧
      register_book parse enc dec w s isbn =
        (.ok (do_req_result dec w (some isbn)),
         [⟨.PUT, book_isbn_url .Auth s.base_url isbn,
           some (enc isbn)⟩])) := by
  cases hp : parse (book_isbn_url .Auth s.base_url isbn) with
  | none =>
    exact .inr ⟨rfl, by simp [register_book, hp, do_put, do_req]⟩
  | some e => exact .inl ⟨⟨e, rfl⟩, by simp [register_book, hp]⟩

/-! ## Claim theorems -/

/-- C1: privileged operations (checkout, checkin, add_book,
delete_book, update_book, register_book) are unreachable on an
unauthenticated handle: they live only in the `impl Server<Auth>`
block, so a call to any of them on a `Server<Unauth>` does not exist
(`step` is `none`) and no network call can be made through them. -/
theorem privileged_unreachable_unauth (env : Env) (s : Server .Unauth)
    (c : Call) (hc : c.privileged = true) :
    step env (.unauth s) c = none := by
  cases c <;> simp_all [Call.privileged, step]

theorem privileged_unreachable_unauth_witness :
    step env0 (.unauth ⟨"example.com"⟩) (.checkout "i" "s") = none :=
  privileged_unreachable_unauth env0 ⟨"example.com"⟩
    (.checkout "i" "s") rfl

/-- C2: the status classification of the request executor maps 404 to
`NotFound`, 500 to `InternalError`, 401 to `AuthError`, lets 200
continue to body read and decode (the call succeeds with `v` exactly
when the decode yields `v`, and a decode failure is `JsonError`), and
maps every other status to `ApiSaidNo`. -/
theorem status_mapping_exact {U : Type}
    (decode : String → Except DErr U) (w : Wire) :
    (w.status = 404 → classify decode w = .error .NotFound) ∧
    (w.status = 500 → classify decode w = .error .InternalError) ∧
    (w.status = 401 → classify decode w = .error .AuthError) ∧
    (∀ v, w.status = 200 → w.readErr = none →
      (classify decode w = .ok v ↔ decode w.respBody = .ok v)) ∧
    (∀ e, w.status = 200 → w.readErr = none →
      decode w.respBody = .error e →
      classify decode w = .error (.JsonError e)) ∧
    (w.status ≠ 404 → w.status ≠ 500 → w.status ≠ 401 →
      w.status ≠ 200 → classify decode w = .error .ApiSaidNo) := by
  refine ⟨fun h => ?_, fun h => ?_, fun h => ?_,
    fun v h hr => ?_, fun e h hr hd => ?_, fun h1 h2 h3 h4 => ?_⟩
  · simp [classify, h]
  · simp [classify, h]
  · simp [classify, h]
  · cases hd : decode w.respBody <;> simp [classify, h, hr, hd]
  · simp [classify, h, hr, hd]
  · simp [classify, h1, h2, h3, h4]

/-- C3 (code bug): the source gives the `Auth` marker the scheme
`"http"`, the same insecure scheme as `Unauth`, even though the doc
comment on `authenticate` promises that after authentication all
requests are made over SSL.  Concretely, a `get_books` call on an
authenticated handle for `example.com` goes out to
`http://example.com/book?count=1`. -/
theorem auth_scheme_insecure :
    St.Auth.proto = "http" ∧ St.Auth.proto = St.Unauth.proto ∧
    step env0 (.auth ⟨"example.com"⟩) (.get_books 1) =
      some (some (.auth ⟨"example.com"⟩), .ok (.ok (.books [])),
        [⟨.GET, "http://example.com/book?count=1", none⟩]) :=
  ⟨rfl, rfl, rfl⟩

/-- C6: `new` consults only the URL parser and issues no network
request (its request trace is empty): a well-formed base address
yields an `Unauth` handle storing exactly that address, a malformed
one yields the parse error and no handle. -/
theorem new_validates_address (parse : String → Option PErr)
    (base : String) :
    (new parse base).2 = [] ∧
    (parse base = none → (new parse base).1 = .ok ⟨base⟩) ∧
    (∀ e, parse base = some e → (new parse base).1 = .error e) := by
  refine ⟨rfl, fun h => ?_, fun e h => ?_⟩ <;> simp [new, h]

/-- C4: the request executor runs connect, start, optional body write,
send, status classification, body read, decode in that order, each
short-circuiting with its step's error kind: connect/start/send
failures are `HttpError`, write and read failures are `IoError`, decode
failures are `JsonError`; the body is encoded into the request exactly
when one is present, and when no body is present the write step is
skipped (its outcome is irrelevant). -/
theorem executor_short_circuit {T U : Type} (encode : T → String)
    (decode : String → Except DErr U) (w : Wire) (url : String)
    (data : Option T) (m : Method) :
    (do_req encode decode w url data m =
      (do_req_result decode w data, ⟨m, url, Option.map encode data⟩)) ∧
    (∀ e, w.connectErr = some e →
      do_req_result decode w data = .error (.HttpError e)) ∧
    (∀ e, w.connectErr = none → w.startErr = some e →
      do_req_result decode w data = .error (.HttpError e)) ∧
    (∀ e b, w.connectErr = none → w.startErr = none → data = some b →
      w.writeErr = some e →
      do_req_result decode w data = .error (.IoError e)) ∧
    (w.connectErr = none → w.startErr = none →
      (data = none ∨ w.writeErr = none) →
      do_req_result decode w data = receive decode w) ∧
    (∀ e, w.sendErr = some e →
      receive decode w = .error (.HttpError e)) ∧
    (w.sendErr = none → receive decode w = classify decode w) ∧
    (∀ e, w.status = 200 → w.readErr = some e →
      classify decode w = .error (.IoError e)) ∧
    (∀ e, w.status = 200 → w.readErr = none →
      decode w.respBody = .error e →
      classify decode w = .error (.JsonError e)) ∧
    (∀ v v',
      do_req_result decode
        ⟨w.connectErr, w.startErr, v, w.sendErr, w.status, w.readErr,
         w.respBody⟩ (none : Option T) =
      do_req_result decode
        ⟨w.connectErr, w.startErr, v', w.sendErr, w.status, w.readErr,
         w.respBody⟩ (none : Option T)) := by
  refine ⟨rfl, fun e h => ?_, fun e h1 h2 => ?_,
    fun e b h1 h2 h3 h4 => ?_, fun h1 h2 h3 => ?_, fun e h => ?_,
    fun h => ?_, fun e h hr => ?_, fun e h hr hd => ?_,
    fun v v' => ?_⟩
  · simp [do_req_result, h]
  · simp [do_req_result, h1, h2]
  · subst h3; simp [do_req_result, h1, h2, h4]
  · rcases h3 with h3 | h3
    · subst h3; simp [do_req_result, h1, h2]
    · cases data <;> simp [do_req_result, h1, h2, h3]
  · simp [receive, h]
  · simp [receive, h]
  · simp [classify, h, hr]
  · simp [classify, h, hr, hd]
  · obtain ⟨c, st, _, sd, stt, rd, bd⟩ := w
    cases c <;> cases st <;> cases sd <;>
      simp [do_req_result, receive, classify]

/-- C5: `authenticate` consumes the unauthenticated handle: the handle
left after the call is never an `Unauth` one — on success it is a new
`Auth` handle with the same base address, and on failure (or on the
URL-parse panic) there is no handle at all, only the outcome. -/
theorem authenticate_consumes_handle (env : Env) (s : Server .Unauth)
    (user pass : String) (h' : Option Handle)
    (r : PanicOr (APIResult OutVal)) (t : List HRequest)
    (hstep : step env (.unauth s) (.authenticate user pass) =
      some (h', r, t)) :
    (h' = some (.auth ⟨s.base_url⟩) ∨ h' = none) ∧
    (∀ s2, h' ≠ some (.unauth s2)) ∧
    (h' = some (.auth ⟨s.base_url⟩) ↔ r = .ok (.ok .unit)) := by
  have hc := authenticate_cases env.parse env.decodeUnit env.wire s
    user pass
  simp only [step] at hstep
  rcases hc with ⟨_, heq⟩ | ⟨_, ⟨e, _, heq⟩ | ⟨_, heq⟩⟩ <;>
      rw [heq] at hstep <;> simp at hstep <;>
      obtain ⟨h1, h2, h3⟩ := hstep <;> subst h1 <;> subst h2 <;>
      refine ⟨?_, ?_, ?_⟩ <;> simp [mapOut]

theorem authenticate_consumes_handle_witness :
    (some (Handle.auth ⟨"example.com"⟩) =
        some (Handle.auth ⟨"example.com"⟩) ∨
      some (Handle.auth ⟨"example.com"⟩) = none) ∧
    (∀ s2, some (Handle.auth ⟨"example.com"⟩) ≠
      some (Handle.unauth s2)) ∧
    (some (Handle.auth ⟨"example.com"⟩) =
        some (Handle.auth ⟨"example.com"⟩) ↔
      (PanicOr.ok (Except.ok OutVal.unit) : PanicOr (APIResult OutVal)) =
        .ok (.ok .unit)) :=
  authenticate_consumes_handle env0 ⟨"example.com"⟩ "u" "p" _ _ _ rfl

/-- C7: each endpoint uses exactly its specified HTTP method —
get_books, get_book_by_isbn and authenticate GET; checkout, checkin
and update_book POST; add_book and register_book PUT; delete_book
DELETE — and delete_book sends no request body. -/
theorem endpoint_methods_exact (env : Env) (h : Handle) (c : Call)
    (h' : Option Handle) (r : PanicOr (APIResult OutVal))
    (t : List HRequest) (hstep : step env h c = some (h', r, t)) :
    (∀ rq ∈ t, rq.method = c.specMethod) ∧
    (∀ rq ∈ t, ∀ isbn, c = .delete_book isbn → rq.body = none) := by
  cases h with
  | unauth s =>
    cases c with
    | get_books count =>
      simp only [step] at hstep
      rcases get_books_cases env.parse env.decodeBooks env.wire s count
        with ⟨_, heq⟩ | ⟨_, heq⟩ <;> rw [heq] at hstep <;>
        simp at hstep <;> obtain ⟨_, _, h3⟩ := hstep <;> subst h3 <;>
        simp [Call.specMethod]
    | get_book_by_isbn isbn =>
      simp only [step] at hstep
      rcases get_book_by_isbn_cases env.parse env.decodeOptBook env.wire
        s isbn with ⟨_, heq⟩ | ⟨_, heq⟩ <;> rw [heq] at hstep <;>
        simp at hstep <;> obtain ⟨_, _, h3⟩ := hstep <;> subst h3 <;>
        simp [Call.specMethod]
    | authenticate user pass =>
      simp only [step] at hstep
      rcases authenticate_cases env.parse env.decodeUnit env.wire s user
        pass with ⟨_, heq⟩ | ⟨_, ⟨e, _, heq⟩ | ⟨_, heq⟩⟩ <;>
        rw [heq] at hstep <;> simp at hstep <;>
        obtain ⟨_, _, h3⟩ := hstep <;> subst h3 <;>
        simp [Call.specMethod]
    | checkout isbn student_id => simp [step] at hstep
    | checkin isbn student_id => simp [step] at hstep
    | update_book isbn book => simp [step] at hstep
    | add_book book => simp [step] at hstep
    | delete_book isbn => simp [step] at hstep
    | register_book isbn => simp [step] at hstep
  | auth s =>
    cases c with
    | get_books count =>
      simp only [step] at hstep
      rcases get_books_cases env.parse env.decodeBooks env.wire s count
        with ⟨_, heq⟩ | ⟨_, heq⟩ <;> rw [heq] at hstep <;>
        simp at hstep <;> obtain ⟨_, _, h3⟩ := hstep <;> subst h3 <;>
        simp [Call.specMethod]
    | get_book_by_isbn isbn =>
      simp only [step] at hstep
      rcases get_book_by_isbn_cases env.parse env.decodeOptBook env.wire
        s isbn with ⟨_, heq⟩ | ⟨_, heq⟩ <;> rw [heq] at hstep <;>
        simp at hstep <;> obtain ⟨_, _, h3⟩ := hstep <;> subst h3 <;>
        simp [Call.specMethod]
    | authenticate user pass => simp [step] at hstep
    | checkout isbn student_id =>
      simp only [step] at hstep
      rcases checkout_cases env.parse env.encodeAR env.decodeBool
        env.wire s isbn student_id with ⟨_, heq⟩ | ⟨_, heq⟩ <;>
        rw [heq] at hstep <;> simp at hstep <;>
        obtain ⟨_, _, h3⟩ := hstep <;> subst h3 <;>
        simp [Call.specMethod]
    | checkin isbn student_id =>
      simp only [step] at hstep
      rcases checkin_cases env.parse env.encodeAR env.decodeBool
        env.wire s isbn student_id with ⟨_, heq⟩ | ⟨_, heq⟩ <;>
        rw [heq] at hstep <;> simp at hstep <;>
        obtain ⟨_, _, h3⟩ := hstep <;> subst h3 <;>
        simp [Call.specMethod]
    | update_book isbn book =>
      simp only [step] at hstep
      rcases update_book_cases env.parse env.encodeBook env.decodeBool
        env.wire s isbn book with ⟨_, heq⟩ | ⟨_, heq⟩ <;>
        rw [heq] at hstep <;> simp at hstep <;>
        obtain ⟨_, _, h3⟩ := hstep <;> subst h3 <;>
        simp [Call.specMethod]
    | add_book book =>
      simp only [step] at hstep
      rcases add_book_cases env.parse env.encodeBook env.decodeBool
        env.wire s book with ⟨_, heq⟩ | ⟨_, heq⟩ <;>
        rw [heq] at hstep <;> simp at hstep <;>
        obtain ⟨_, _, h3⟩ := hstep <;> subst h3 <;>
        simp [Call.specMethod]
    | delete_book isbn =>
      simp only [step] at hstep
      rcases delete_book_cases env.parse env.decodeBool env.wire s isbn
        with ⟨_, heq⟩ | ⟨_, heq⟩ <;> rw [heq] at hstep <;>
        simp at hstep <;> obtain ⟨_, _, h3⟩ := hstep <;> subst h3 <;>
        simp [Call.specMethod]
    | register_book isbn =>
      simp only [step] at hstep
      rcases register_book_cases env.parse env.encodeStr env.decodeBool
        env.wire s isbn with ⟨_, heq⟩ | ⟨_, heq⟩ <;>
        rw [heq] at hstep <;> simp at hstep <;>
        obtain ⟨_, _, h3⟩ := hstep <;> subst h3 <;>
        simp [Call.specMethod]

theorem endpoint_methods_exact_witness :
    (∀ rq ∈ [(⟨.GET, book_count_url .Unauth "example.com" 4, none⟩
        : HRequest)], rq.method = (Call.get_books 4).specMethod) ∧
    (∀ rq ∈ [(⟨.GET, book_count_url .Unauth "example.com" 4, none⟩
        : HRequest)], ∀ isbn, Call.get_books 4 = .delete_book isbn →
      rq.body = none) :=
  endpoint_methods_exact env0 (.unauth ⟨"example.com"⟩) (.get_books 4)
    _ _ _ rfl

/-- C9: no operation other than the handle-consuming `authenticate`
changes the handle: the handle left after the call is exactly the
handle it was called on, same base address and same state marker. -/
theorem handles_not_mutated (env : Env) (h : Handle) (c : Call)
    (hna : ∀ user pass, c ≠ .authenticate user pass)
    (h' : Option Handle) (r : PanicOr (APIResult OutVal))
    (t : List HRequest) (hstep : step env h c = some (h', r, t)) :
    h' = some h := by
  cases h <;> cases c <;>
    first
      | exact absurd rfl (hna _ _)
      | (simp only [step] at hstep; exact Option.noConfusion hstep)
      | (simp only [step] at hstep; simp at hstep; exact hstep.1.symm)

theorem handles_not_mutated_witness :
    (some (Handle.unauth ⟨"example.com"⟩) : Option Handle) =
      some (.unauth ⟨"example.com"⟩) :=
  handles_not_mutated env0 (.unauth ⟨"example.com"⟩) (.get_books 2)
    (fun _ _ hx => Call.noConfusion hx) _ _ _ rfl

/-- C8 counterexample: construction succeeds on the base address
`example.com`, yet `get_book_by_isbn` with the isbn `bad isbn` —
a request-time input, not construction-time misuse — panics
(`.expect("Invalid ISBN!")`) instead of returning an error, because
the assembled URL `http://example.com/book/bad isbn` fails to parse. -/
theorem request_time_panic_cex :
    (new badParse "example.com").1 = .ok ⟨"example.com"⟩ ∧
    step envBad (.unauth ⟨"example.com"⟩)
        (.get_book_by_isbn "bad isbn") =
      some (some (.unauth ⟨"example.com"⟩), .panic "Invalid ISBN!",
        []) :=
  ⟨rfl, rfl⟩

/-- C8 (amended): provided every assembled request URL parses
successfully, no operation panics after construction — every failure
is returned as an error value; when a request-time URL parse fails the
operation panics instead of returning an error (see the
counterexample). -/
theorem no_panic_when_urls_parse (env : Env)
    (hp : ∀ str, env.parse str = none) (h : Handle) (c : Call)
    (h' : Option Handle) (r : PanicOr (APIResult OutVal))
    (t : List HRequest) (hstep : step env h c = some (h', r, t))
    (m : String) : r ≠ .panic m := by
  cases h with
  | unauth s =>
    cases c with
    | get_books count =>
      simp only [step] at hstep
      rcases get_books_cases env.parse env.decodeBooks env.wire s count
        with ⟨⟨e, he⟩, _⟩ | ⟨_, heq⟩
      · rw [hp] at he; cases he
      · rw [heq] at hstep; simp at hstep
        obtain ⟨_, h2, _⟩ := hstep; subst h2; simp [mapOut_panic_iff]
    | get_book_by_isbn isbn =>
      simp only [step] at hstep
      rcases get_book_by_isbn_cases env.parse env.decodeOptBook env.wire
        s isbn with ⟨⟨e, he⟩, _⟩ | ⟨_, heq⟩
      · rw [hp] at he; cases he
      · rw [heq] at hstep; simp at hstep
        obtain ⟨_, h2, _⟩ := hstep; subst h2; simp [mapOut_panic_iff]
    | authenticate user pass =>
      simp only [step] at hstep
      rcases authenticate_cases env.parse env.decodeUnit env.wire s user
        pass with ⟨⟨e, he⟩, _⟩ | ⟨_, ⟨e, _, heq⟩ | ⟨_, heq⟩⟩
      · rw [hp] at he; cases he
      · rw [heq] at hstep; simp at hstep
        obtain ⟨_, h2, _⟩ := hstep; subst h2; simp [mapOut_panic_iff]
      · rw [heq] at hstep; simp at hstep
        obtain ⟨_, h2, _⟩ := hstep; subst h2; simp [mapOut_panic_iff]
    | checkout isbn student_id => simp [step] at hstep
    | checkin isbn student_id => simp [step] at hstep
    | update_book isbn book => simp [step] at hstep
    | add_book book => simp [step] at hstep
    | delete_book isbn => simp [step] at hstep
    | register_book isbn => simp [step] at hstep
  | auth s =>
    cases c with
    | get_books count =>
      simp only [step] at hstep
      rcases get_books_cases env.parse env.decodeBooks env.wire s count
        with ⟨⟨e, he⟩, _⟩ | ⟨_, heq⟩
      · rw [hp] at he; cases he
      · rw [heq] at hstep; simp at hstep
        obtain ⟨_, h2, _⟩ := hstep; subst h2; simp [mapOut_panic_iff]
    | get_book_by_isbn isbn =>
      simp only [step] at hstep
      rcases get_book_by_isbn_cases env.parse env.decodeOptBook env.wire
        s isbn with ⟨⟨e, he⟩, _⟩ | ⟨_, heq⟩
      · rw [hp] at he; cases he
      · rw [heq] at hstep; simp at hstep
        obtain ⟨_, h2, _⟩ := hstep; subst h2; simp [mapOut_panic_iff]
    | authenticate user pass => simp [step] at hstep
    | checkout isbn student_id =>
      simp only [step] at hstep
      rcases checkout_cases env.parse env.encodeAR env.decodeBool
        env.wire s isbn student_id with ⟨⟨e, he⟩, _⟩ | ⟨_, heq⟩
      · rw [hp] at he; cases he
      · rw [heq] at hstep; simp at hstep
        obtain ⟨_, h2, _⟩ := hstep; subst h2; simp [mapOut_panic_iff]
    | checkin isbn student_id =>
      simp only [step] at hstep
      rcases checkin_cases env.parse env.encodeAR env.decodeBool
        env.wire s isbn student_id with ⟨⟨e, he⟩, _⟩ | ⟨_, heq⟩
      · rw [hp] at he; cases he
      · rw [heq] at hstep; simp at hstep
        obtain ⟨_, h2, _⟩ := hstep; subst h2; simp [mapOut_panic_iff]
    | update_book isbn book =>
      simp only [step] at hstep
      rcases update_book_cases env.parse env.encodeBook env.decodeBool
        env.wire s isbn book with ⟨⟨e, he⟩, _⟩ | ⟨_, heq⟩
      · rw [hp] at he; cases he
      · rw [heq] at hstep; simp at hstep
        obtain ⟨_, h2, _⟩ := hstep; subst h2; simp [mapOut_panic_iff]
    | add_book book =>
      simp only [step] at hstep
      rcases add_book_cases env.parse env.encodeBook env.decodeBool
        env.wire s book with ⟨⟨e, he⟩, _⟩ | ⟨_, heq⟩
      · rw [hp] at he; cases he
      · rw [heq] at hstep; simp at hstep
        obtain ⟨_, h2, _⟩ := hstep; subst h2; simp [mapOut_panic_iff]
    | delete_book isbn =>
      simp only [step] at hstep
      rcases delete_book_cases env.parse env.decodeBool env.wire s isbn
        with ⟨⟨e, he⟩, _⟩ | ⟨_, heq⟩
      · rw [hp] at he; cases he
      · rw [heq] at hstep; simp at hstep
        obtain ⟨_, h2, _⟩ := hstep; subst h2; simp [mapOut_panic_iff]
    | register_book isbn =>
      simp only [step] at hstep
      rcases register_book_cases env.parse env.encodeStr env.decodeBool
        env.wire s isbn with ⟨⟨e, he⟩, _⟩ | ⟨_, heq⟩
      · rw [hp] at he; cases he
      · rw [heq] at hstep; simp at hstep
        obtain ⟨_, h2, _⟩ := hstep; subst h2; simp [mapOut_panic_iff]

theorem no_panic_when_urls_parse_witness :
    (PanicOr.ok (Except.ok (OutVal.books [])) :
      PanicOr (APIResult OutVal)) ≠ .panic "Invalid ISBN!" :=
  no_panic_when_urls_parse env0 (fun _ => rfl)
    (.unauth ⟨"example.com"⟩) (.get_books 1) _ _ _ rfl "Invalid ISBN!"

/-- C10: no public operation ever returns the `GotNull` error variant:
every 200 response is handled uniformly through the JSON decode, so
the outcome is a decoded value, a panic, or one of the other error
variants — never `GotNull`. -/
theorem got_null_never_returned (env : Env) (h : Handle) (c : Call)
    (h' : Option Handle) (r : PanicOr (APIResult OutVal))
    (t : List HRequest) (hstep : step env h c = some (h', r, t)) :
    r ≠ .ok (.error .GotNull) := by
  cases h with
  | unauth s =>
    cases c with
    | get_books count =>
      simp only [step] at hstep
      rcases get_books_cases env.parse env.decodeBooks env.wire s count
        with ⟨_, heq⟩ | ⟨_, heq⟩ <;> rw [heq] at hstep <;>
        simp at hstep <;> obtain ⟨_, h2, _⟩ := hstep <;> subst h2
      · simp [mapOut]
      · intro hcon
        rw [mapOut_error_iff] at hcon
        simp at hcon
        exact do_req_result_ne_gotnull _ _ _ hcon
    | get_book_by_isbn isbn =>
      simp only [step] at hstep
      rcases get_book_by_isbn_cases env.parse env.decodeOptBook env.wire
        s isbn with ⟨_, heq⟩ | ⟨_, heq⟩ <;> rw [heq] at hstep <;>
        simp at hstep <;> obtain ⟨_, h2, _⟩ := hstep <;> subst h2
      · simp [mapOut]
      · intro hcon
        rw [mapOut_error_iff] at hcon
        simp at hcon
        exact do_req_result_ne_gotnull _ _ _ hcon
    | authenticate user pass =>
      simp only [step] at hstep
      rcases authenticate_cases env.parse env.decodeUnit env.wire s user
        pass with ⟨_, heq⟩ | ⟨_, ⟨e, he, heq⟩ | ⟨_, heq⟩⟩ <;>
        rw [heq] at hstep <;> simp at hstep <;>
        obtain ⟨_, h2, _⟩ := hstep <;> subst h2
      · simp [mapOut]
      · intro hcon
        simp [mapOut] at hcon
        subst hcon
        exact do_req_result_ne_gotnull _ _ _ he
      · simp [mapOut]
    | checkout isbn student_id => simp [step] at hstep
    | checkin isbn student_id => simp [step] at hstep
    | update_book isbn book => simp [step] at hstep
    | add_book book => simp [step] at hstep
    | delete_book isbn => simp [step] at hstep
    | register_book isbn => simp [step] at hstep
  | auth s =>
    cases c with
    | get_books count =>
      simp only [step] at hstep
      rcases get_books_cases env.parse env.decodeBooks env.wire s count
        with ⟨_, heq⟩ | ⟨_, heq⟩ <;> rw [heq] at hstep <;>
        simp at hstep <;> obtain ⟨_, h2, _⟩ := hstep <;> subst h2
      · simp [mapOut]
      · intro hcon
        rw [mapOut_error_iff] at hcon
        simp at hcon
        exact do_req_result_ne_gotnull _ _ _ hcon
    | get_book_by_isbn isbn =>
      simp only [step] at hstep
      rcases get_book_by_isbn_cases env.parse env.decodeOptBook env.wire
        s isbn with ⟨_, heq⟩ | ⟨_, heq⟩ <;> rw [heq] at hstep <;>
        simp at hstep <;> obtain ⟨_, h2, _⟩ := hstep <;> subst h2
      · simp [mapOut]
      · intro hcon
        rw [mapOut_error_iff] at hcon
        simp at hcon
        exact do_req_result_ne_gotnull _ _ _ hcon
    | authenticate user pass => simp [step] at hstep
    | checkout isbn student_id =>
      simp only [step] at hstep
      rcases checkout_cases env.parse env.encodeAR env.decodeBool
        env.wire s isbn student_id with ⟨_, heq⟩ | ⟨_, heq⟩ <;>
        rw [heq] at hstep <;> simp at hstep <;>
        obtain ⟨_, h2, _⟩ := hstep <;> subst h2
      · simp [mapOut]
      · intro hcon
        rw [mapOut_error_iff] at hcon
        simp at hcon
        exact do_req_result_ne_gotnull _ _ _ hcon
    | checkin isbn student_id =>
      simp only [step] at hstep
      rcases checkin_cases env.parse env.encodeAR env.decodeBool
        env.wire s isbn student_id with ⟨_, heq⟩ | ⟨_, heq⟩ <;>
        rw [heq] at hstep <;> simp at hstep <;>
        obtain ⟨_, h2, _⟩ := hstep <;> subst h2
      · simp [mapOut]
      · intro hcon
        rw [mapOut_error_iff] at hcon
        simp at hcon
        exact do_req_result_ne_gotnull _ _ _ hcon
    | update_book isbn book =>
      simp only [step] at hstep
      rcases update_book_cases env.parse env.encodeBook env.decodeBool
        env.wire s isbn book with ⟨_, heq⟩ | ⟨_, heq⟩ <;>
        rw [heq] at hstep <;> simp at hstep <;>
        obtain ⟨_, h2, _⟩ := hstep <;> subst h2
      · simp [mapOut]
      · intro hcon
        rw [mapOut_error_iff] at hcon
        simp at hcon
        exact do_req_result_ne_gotnull _ _ _ hcon
    | add_book book =>
      simp only [step] at hstep
      rcases add_book_cases env.parse env.encodeBook env.decodeBool
        env.wire s book with ⟨_, heq⟩ | ⟨_, heq⟩ <;>
        rw [heq] at hstep <;> simp at hstep <;>
        obtain ⟨_, h2, _⟩ := hstep <;> subst h2
      · simp [mapOut]
      · intro hcon
        rw [mapOut_error_iff] at hcon
        simp at hcon
        exact do_req_result_ne_gotnull _ _ _ hcon
    | delete_book isbn =>
      simp only [step] at hstep
      rcases delete_book_cases env.parse env.decodeBool env.wire s isbn
        with ⟨_, heq⟩ | ⟨_, heq⟩ <;> rw [heq] at hstep <;>
        simp at hstep <;> obtain ⟨_, h2, _⟩ := hstep <;> subst h2
      · simp [mapOut]
      · intro hcon
        rw [mapOut_error_iff] at hcon
        simp at hcon
        exact do_req_result_ne_gotnull _ _ _ hcon
    | register_book isbn =>
      simp only [step] at hstep
      rcases register_book_cases env.parse env.encodeStr env.decodeBool
        env.wire s isbn with ⟨_, heq⟩ | ⟨_, heq⟩ <;>
        rw [heq] at hstep <;> simp at hstep <;>
        obtain ⟨_, h2, _⟩ := hstep <;> subst h2
      · simp [mapOut]
      · intro hcon
        rw [mapOut_error_iff] at hcon
        simp at hcon
        exact do_req_result_ne_gotnull _ _ _ hcon

theorem got_null_never_returned_witness :
    (PanicOr.ok (Except.ok (OutVal.books [])) :
      PanicOr (APIResult OutVal)) ≠ .ok (.error .GotNull) :=
  got_null_never_returned env0 (.unauth ⟨"example.com"⟩)
    (.get_books 3) _ _ _ rfl

end Alexandria
